import Mathlib

/-!
Verification development for the zindi client (zindi/user.py).

The Python class Zindian is embedded shallowly: each public operation becomes a
pure Lean function from the session state and the server responses it would
receive to a record holding its return value (an Except, since the operation can
raise), the network requests it issued, the messages it printed, and any caches
or filesystem effects it produced.  Server payloads are embedded as structures
mirroring exactly the fields the Python code reads.
-/

namespace Zindi

/-- Label of a network request the client can issue. -/
inductive NetReq where
  | limits
  | myParticipation
  | lbPage
  | rankLookup
  | sbPage
  | challengeDetail
  | fileDownload (url : String) (filename : String)
  | upload (filepath : String) (comment : String)
  | teamCreate
  | invite (username : String)
  | teamDisband
  deriving DecidableEq, Repr

/-- Filesystem side effect performed by the client. -/
inductive FsOp where
  | mkdir (dir : String)
  deriving DecidableEq, Repr

/-- Message printed by every challenge-scoped accessor when no challenge is selected
(user.py lines 56, 106, 138). -/
def noChallengeNoteMsg : String := "\n[ 🔴 ] You have not yet selected any challenge.\n"

/-- Error raised by download_dataset when no challenge is selected (user.py line 320,
keeping the source typo downoad). -/
def downloadNotSelMsg : String :=
  "\n[ 🔴 ] You have to select a challenge before to downoad a dataset,\n\tuse the select_a_challenge method before.\n"

/-- Error raised by submit when no challenge is selected (user.py line 376). -/
def submitNotSelMsg : String :=
  "\n[ 🔴 ] You have to select a challenge before to push any submission file,\n\tuse the select_a_challenge method before.\n"

/-- Error raised by leaderboard when no challenge is selected (user.py line 416). -/
def lbNotSelMsg : String :=
  "\n[ 🔴 ] You have to select a challenge before to get the leaderboard,\n\tuse the select_a_challenge method before.\n"

/-- Error raised by submission_board when no challenge is selected (user.py line 455). -/
def sbNotSelMsg : String :=
  "\n[ 🔴 ] You have to select a challenge before to get the submission-board,\n\tuse the select_a_challenge method before.\n"

/-- Error raised by the team operations when no challenge is selected (user.py
lines 504, 543, 567). -/
def teamNotSelMsg : String :=
  "\n[ 🔴 ] You have to select a challenge before to manage your team,\n\tuse the select_a_challenge method before.\n"

/-- Rendering of an application-level errors payload in a raised message. -/
def errorsMsg (e : String) : String := s!"\n[ 🔴 ] {e}\n"

/-- Rendering of a success payload (disband_team). -/
def greenMsg (p : String) : String := s!"\n[ 🟢 ] {p}\n"

/-! ### my_rank (user.py lines 61-109) -/

/-- Payload of GET participations/my_participation as read by my_rank:
an optional errors field and an optional numeric public_rank (`.get` with
default 0, then `or 0`, sends an absent or null rank to 0). -/
structure MyPartResp where
  errors : Option String
  public_rank : Option Nat
  deriving DecidableEq, Repr

/-- Ordinal suffix computed by my_rank from the decimal digits of the rank:
the Python code branches on the last character of str(rank) (the units digit,
`n % 10`) and, when the string has a second-to-last character (`10 ≤ n`), on the
tens digit (`n / 10 % 10`). -/
def rankSuffix (n : Nat) : String :=
  if n % 10 = 1 then (if 10 ≤ n ∧ n / 10 % 10 = 1 then "th" else "st")
  else if n % 10 = 2 then (if 10 ≤ n ∧ n / 10 % 10 = 1 then "th" else "nd")
  else if n % 10 = 3 then (if 10 ≤ n ∧ n / 10 % 10 = 1 then "th" else "rd")
  else "th"

/-- Rank rendering used in the printed message: "not yet" for 0, otherwise the
rank followed by its ordinal suffix. -/
def rankString (n : Nat) : String :=
  if n = 0 then "not yet" else toString n ++ rankSuffix n

/-- Printed success message of my_rank (user.py line 104, keeping the source
typo leaderboad). -/
def rankMsg (rank : String) (cid : String) : String :=
  s!"\n[ 🟢 ] You are {rank} on the leaderboad of {cid} challenge, Go on...\n"

/-- Output of my_rank. -/
structure RankOut where
  result : Except String Nat
  reqs : List NetReq
  printed : List String
  cached : Option Nat

/-- Embedding of the my_rank property (user.py lines 61-109). -/
def my_rank (selected : Bool) (cid : String) (resp : MyPartResp) : RankOut :=
  if selected then
    match resp.errors with
    | some e => { result := .error (errorsMsg e), reqs := [.myParticipation],
                  printed := [], cached := none }
    | none =>
      let int_rank := resp.public_rank.getD 0
      let rank := rankString int_rank
      { result := .ok int_rank, reqs := [.myParticipation],
        printed := [rankMsg rank cid], cached := some int_rank }
  else
    { result := .ok 0, reqs := [], printed := [noChallengeNoteMsg], cached := none }

/-! ### remaining_subimissions (user.py lines 111-140) -/

/-- Payload of GET submissions/limits as read by remaining_subimissions; a
missing today key would raise a Python KeyError, hence the Option. -/
structure LimitsResp where
  errors : Option String
  today : Option Int
  deriving DecidableEq, Repr

/-- Token of an informational-page content, abstracting the HTML text of the
page into words and numbers. -/
inductive Tok where
  | word (s : String)
  | num (n : Nat)
  deriving DecidableEq, Repr

/-- Informational page of a challenge. -/
structure Page where
  title : String
  content : List Tok
  deriving DecidableEq, Repr

/-- Submission-board entry reduced to its creation time, measured in hours on
an absolute clock. -/
structure SubEntry where
  created_at : Int
  deriving DecidableEq, Repr

/-- World state seen by remaining_subimissions: the selection flag and the
server-side data the operation could consult (the informational pages, the
submission board, the current time, and the payload the submissions/limits
endpoint would return). -/
structure RemEnv where
  selected : Bool
  cid : String
  pages : List Page
  board : List SubEntry
  now : Int
  limits : LimitsResp

/-- Printed success message of remaining_subimissions (user.py line 135). -/
def limitsOkMsg (free : Int) (cid : String) : String :=
  s!"\n[ 🟢 ] You have {free} remaining submissions for the challenge {cid}.\n"

/-- Output of remaining_subimissions. -/
structure RemOut where
  result : Except String (Option Int)
  reqs : List NetReq
  printed : List String

/-- Embedding of the remaining_subimissions property (user.py lines 111-140):
one GET to submissions/limits, raise on an errors payload, otherwise return the
today field.  The pages, board and now components of the environment are not
consulted. -/
def remaining_subimissions (env : RemEnv) : RemOut :=
  if env.selected then
    match env.limits.errors with
    | some e => { result := .error (errorsMsg e), reqs := [.limits], printed := [] }
    | none =>
      match env.limits.today with
      | none => { result := .error "KeyError: today", reqs := [.limits], printed := [] }
      | some t =>
        { result := .ok (some t), reqs := [.limits], printed := [limitsOkMsg t env.cid] }
  else
    { result := .ok none, reqs := [], printed := [noChallengeNoteMsg] }

/-- Modelled from the spec: the quota phrase scanner inside n_subimissions_per_day
(zindi/utils.py, a file absent from src/): find the integer N in the phrase
"maximum of N submissions per day" inside a page content; none when the phrase
is missing. -/
def phraseQuota : List Tok → Option Nat
  | Tok.word "maximum" :: Tok.word "of" :: Tok.num n :: Tok.word "submissions"
      :: Tok.word "per" :: Tok.word "day" :: _ => some n
  | _ :: rest => phraseQuota rest
  | [] => none

/-- Modelled from the spec: the daily-quota helper n_subimissions_per_day
(zindi/utils.py, absent from src/): locate the page titled "Rules" and extract
the integer of the fixed phrase; a missing page, missing phrase or unparsable
number yields 0 without raising. -/
def rulesQuota (pages : List Page) : Nat :=
  match pages.find? (fun p => p.title == "Rules") with
  | some p => (phraseQuota p.content).getD 0
  | none => 0

/-- Spec-side definition, for refinement comparison only, of the
remaining-submissions computation described by the spec: daily quota from the
Rules page minus the count of board entries created within the trailing
24-hour window, clamped at zero (Nat subtraction). -/
def spec_remaining_submissions (env : RemEnv) : Nat :=
  rulesQuota env.pages -
    (env.board.filter (fun e => env.now - e.created_at < 24)).length

/-! ### download_dataset (user.py lines 283-321) -/

/-- Record of the challenge file manifest, with the fields the code reads;
de-duplication in the Python code compares full records. -/
structure DataFile where
  id : String
  filename : String
  deriving DecidableEq, Repr

/-- One step of the Python de-duplication loop: append the record unless it is
already present. -/
def dedupStep (acc : List DataFile) (i : DataFile) : List DataFile :=
  if i ∈ acc then acc else acc ++ [i]

/-- Embedding of the de-duplication comprehension of download_dataset
(user.py lines 304-307): datafiles starts empty and each manifest record is
appended only if not yet present. -/
def removeDeplicates (datafiles_ : List DataFile) : List DataFile :=
  datafiles_.foldl dedupStep []

/-- os.path.join for the destination of a downloaded file. -/
def pathJoin (dir file : String) : String := dir ++ "/" ++ file

/-- Output of download_dataset. -/
structure DownloadOut where
  result : Except String Unit
  reqs : List NetReq
  fsOps : List FsOp
  downloads : List DataFile

/-- Embedding of download_dataset (user.py lines 283-321).  The makedirs call
happens before the selection check; with a challenge selected the manifest is
fetched, de-duplicated, and the download helper is invoked once per remaining
record. -/
def download_dataset (selected : Bool) (isdir : Bool) (destination : String)
    (make_destination : Bool) (api : String) (datafiles_ : List DataFile) :
    DownloadOut :=
  let fsOps := if !isdir && make_destination then [FsOp.mkdir destination] else []
  if selected then
    let datafiles := removeDeplicates datafiles_
    { result := .ok ()
      reqs := .challengeDetail ::
        datafiles.map (fun d =>
          .fileDownload (api ++ "/files/" ++ d.filename) (pathJoin destination d.filename))
      fsOps := fsOps
      downloads := datafiles }
  else
    { result := .error downloadNotSelMsg, reqs := [], fsOps := fsOps, downloads := [] }

/-! ### submit (user.py lines 324-377) -/

/-- Payload of the upload response as read by submit: the code first tries to
print an errors field, and on the resulting KeyError falls back to printing the
id field (a missing id there escapes the bare except and raises). -/
structure UploadResp where
  errors : Option String
  id : Option String
  deriving DecidableEq, Repr

/-- Allowed submission extensions (user.py lines 340-342). -/
def allowed_extensions : List String := ["csv"]

/-- Python str.split on a one-character separator, over the character list of
the string: splitting the empty string yields one empty group, and every
separator occurrence opens a new group. -/
def pySplit (sep : Char) : List Char → List (List Char)
  | [] => [[]]
  | c :: rest =>
    match pySplit sep rest with
    | [] => [[]]
    | g :: gs => if c = sep then [] :: g :: gs else (c :: g) :: gs

/-- Python str.strip whitespace test. -/
def isPySpace (c : Char) : Bool :=
  c == ' ' || c == '\t' || c == '\n' || c == '\r' || c == '\x0b' || c == '\x0c'

/-- Python str.strip: drop whitespace from both ends. -/
def pyStrip (cs : List Char) : List Char :=
  ((cs.dropWhile isPySpace).reverse.dropWhile isPySpace).reverse

/-- Python str.lower. -/
def pyLower (cs : List Char) : List Char := cs.map Char.toLower

/-- Extension extraction of submit: filepath.split(".")[-1].strip().lower(). -/
def extensionOf (filepath : String) : String :=
  String.mk (pyLower (pyStrip ((pySplit '.' filepath.data).getLastD filepath.data)))

/-- Per-file diagnostic when the upload response carries errors (user.py
lines 360-362). -/
def submitWrongFileMsg (filepath e : String) : String :=
  s!"\n[ 🔴 ] Something wrong with file :{filepath} ,\n{e}\n"

/-- Per-file success message carrying the returned submission id (user.py
lines 364-366). -/
def submitOkMsg (i filepath : String) : String :=
  s!"\n[ 🟢 ] Submission ID: {i} - File submitted : {filepath}\n"

/-- Per-file diagnostic for a path that is not a file on disk (user.py
lines 368-370). -/
def submitNoFileMsg (filepath : String) : String :=
  s!"\n[ 🔴 ] File doesnt exists, please verify this filepath : {filepath}\n"

/-- Per-file diagnostic for an extension other than .csv (user.py
lines 372-374). -/
def submitNotCsvMsg (filepath : String) : String :=
  s!"\n[ 🔴 ] Submission file must be a CSV file ( .csv ),\n\tplease verify this filepath : {filepath}\n"

/-- Output of the per-file loop of submit: the (filepath, comment) pairs for
which the upload helper was invoked, the printed diagnostics, and the overall
outcome. -/
structure LoopOut where
  uploads : List (String × String)
  printed : List String
  result : Except String Unit
  deriving Repr

/-- Embedding of the per-file loop of submit (user.py lines 347-374): extension
check, existence check, upload, then the try/except that prints the errors
field or, failing that, the id field. -/
def submitLoop (isfile : String → Bool) (up : String → UploadResp) :
    List (String × String) → LoopOut
  | [] => { uploads := [], printed := [], result := .ok () }
  | (filepath, comment) :: rest =>
    if extensionOf filepath ∈ allowed_extensions then
      if isfile filepath then
        let resp := up filepath
        match resp.errors with
        | some e =>
          let out := submitLoop isfile up rest
          { uploads := (filepath, comment) :: out.uploads,
            printed := submitWrongFileMsg filepath e :: out.printed,
            result := out.result }
        | none =>
          match resp.id with
          | some i =>
            let out := submitLoop isfile up rest
            { uploads := (filepath, comment) :: out.uploads,
              printed := submitOkMsg i filepath :: out.printed,
              result := out.result }
          | none =>
            { uploads := [(filepath, comment)], printed := [],
              result := .error "KeyError: id" }
      else
        let out := submitLoop isfile up rest
        { out with printed := submitNoFileMsg filepath :: out.printed }
    else
      let out := submitLoop isfile up rest
      { out with printed := submitNotCsvMsg filepath :: out.printed }

/-- Output of submit.  The store component models the Python heap of list
objects: comments lists are passed by reference (a Nat naming the object), and
the augmented assignment on the comments parameter mutates the referenced
object in place. -/
structure SubmitOut where
  result : Except String Unit
  uploads : List (String × String)
  printed : List String
  store : Nat → List String

/-- Reference of the module-level default list object bound to the comments
parameter at function definition time; every call omitting comments passes this
same object. -/
def defaultCommentsRef : Nat := 0

/-- Embedding of submit (user.py lines 324-377).  With a challenge selected, a
comments list shorter than filepaths is extended in place with empty strings
(the augmented assignment mutates the referenced list object), then each
(filepath, comment) pair is processed by the loop. -/
def submit (selected : Bool) (isfile : String → Bool) (up : String → UploadResp)
    (filepaths : List String) (commentsRef : Nat) (store : Nat → List String) :
    SubmitOut :=
  if selected then
    let comments := store commentsRef
    let comments :=
      if comments.length < filepaths.length then
        comments ++ List.replicate (filepaths.length - comments.length) ""
      else comments
    let store1 : Nat → List String := fun r => if r = commentsRef then comments else store r
    let out := submitLoop isfile up (filepaths.zip comments)
    { result := out.result, uploads := out.uploads, printed := out.printed, store := store1 }
  else
    { result := .error submitNotSelMsg, uploads := [], printed := [], store := store }

/-! ### select_a_challenge (user.py lines 182-280) -/

/-- Challenge descriptor fields read by select_a_challenge. -/
structure Challenge where
  id : String
  subtitle : String
  deriving DecidableEq, Repr

/-- Payload of the direct-id descriptor fetch. -/
structure DetailResp where
  errors : Option String
  challenge : Challenge
  deriving DecidableEq, Repr

/-- Printed diagnostic when zero challenges match the search filters (user.py
line 257). -/
def noChallengesFoundMsg : String := "\n[ 🔴 ] No challenges found matching your criteria.\n"

/-- Range error raised for an explicit out-of-range fixed_index (user.py
lines 264-266). -/
def rangeErrMsg (n : Nat) : String :=
  s!"\n[ 🔴 ] The parameter fixed_index must be an integer in range(0, {n}).\n"

/-- Printed diagnostic of the direct-id mode when the service reports the
challenge as unknown (user.py line 227). -/
def notFoundMsg (cid : String) : String := s!"\n[ 🔴 ] Challenge {cid} not found.\n"

/-- Printed message on selecting a challenge in direct-id mode (user.py
lines 237-239). -/
def chooseDirectMsg (cid subtitle : String) : String :=
  s!"\n[ 🟢 ] You choose the challenge : {cid},\n\t{subtitle}\n"

/-- Printed message on selecting a challenge in search mode (user.py
lines 274-276). -/
def chooseMsg (cid subtitle : String) : String :=
  s!"\n[ 🟢 ] You choose the challenge : {cid},\n\t{subtitle}.\n"

/-- Output of select_a_challenge. -/
structure SelectOut where
  result : Except String Unit
  challengeSelected : Bool
  chosen : Option Challenge
  printed : List String
  joined : Bool
  deriving Repr

/-- Embedding of select_a_challenge (user.py lines 182-280).  Direct-id mode
fetches a descriptor; filtered-search mode fetches a page of descriptors
(challengesData), reports and returns when it is empty, validates an explicit
fixed_index against range(0, n), or otherwise consults the interactive index
selector (zindi/utils.py challenge_idx_selector, passed as an oracle; -1 is the
quit sentinel). -/
def select_a_challenge (challenge_id : Option String) (detailResp : DetailResp)
    (challengesData : List Challenge) (fixed_index : Option Int)
    (idxSelector : Nat → Int) : SelectOut :=
  match challenge_id with
  | some cidArg =>
    match detailResp.errors with
    | some _ =>
      { result := .ok (), challengeSelected := false, chosen := none,
        printed := [notFoundMsg cidArg], joined := false }
    | none =>
      { result := .ok (), challengeSelected := true, chosen := some detailResp.challenge,
        printed := [chooseDirectMsg detailResp.challenge.id detailResp.challenge.subtitle],
        joined := true }
  | none =>
    let n_challenges := challengesData.length
    if n_challenges = 0 then
      { result := .ok (), challengeSelected := false, chosen := none,
        printed := [noChallengesFoundMsg], joined := false }
    else
      let idxE : Except String Int :=
        match fixed_index with
        | none => .ok (idxSelector n_challenges)
        | some i =>
          if i < 0 ∨ (n_challenges : Int) ≤ i then .error (rangeErrMsg n_challenges)
          else .ok i
      match idxE with
      | .error e =>
        { result := .error e, challengeSelected := false, chosen := none,
          printed := [], joined := false }
      | .ok challenge_index =>
        if challenge_index > -1 then
          match challengesData.get? challenge_index.toNat with
          | some c =>
            { result := .ok (), challengeSelected := true, chosen := some c,
              printed := [chooseMsg c.id c.subtitle], joined := true }
          | none =>
            { result := .error "IndexError", challengeSelected := false, chosen := none,
              printed := [], joined := false }
        else
          { result := .ok (), challengeSelected := false, chosen := none,
            printed := [], joined := false }

/-! ### leaderboard and submission_board (user.py lines 380-456) -/

/-- Envelope payload reduced to the optional errors key, the only field the
selection logic of these two methods inspects. -/
structure BoardResp where
  errors : Option String
  deriving DecidableEq, Repr

/-- Output of leaderboard. -/
structure LbOut where
  result : Except String Unit
  reqs : List NetReq
  cachedRank : Option Nat

/-- Embedding of leaderboard (user.py lines 380-417).  The rank computation is
delegated to user_on_lb (zindi/utils.py, absent from src/), passed as an
oracle value; its own participations lookup is recorded as a request. -/
def leaderboard (selected : Bool) (resp : BoardResp) (user_on_lb_rank : Nat)
    (to_print : Bool) : LbOut :=
  if selected then
    match resp.errors with
    | some e => { result := .error (errorsMsg e), reqs := [.lbPage], cachedRank := none }
    | none => { result := .ok (), reqs := [.lbPage, .rankLookup],
                cachedRank := some user_on_lb_rank }
  else
    { result := .error lbNotSelMsg, reqs := [], cachedRank := none }

/-- Output of submission_board. -/
structure SbOut where
  result : Except String Unit
  reqs : List NetReq
  cached : Bool

/-- Embedding of submission_board (user.py lines 420-456). -/
def submission_board (selected : Bool) (resp : BoardResp) (to_print : Bool) : SbOut :=
  if selected then
    match resp.errors with
    | some e => { result := .error (errorsMsg e), reqs := [.sbPage], cached := false }
    | none => { result := .ok (), reqs := [.sbPage], cached := true }
  else
    { result := .error sbNotSelMsg, reqs := [], cached := false }

/-! ### team operations (user.py lines 460-568) -/

/-- Application-level errors object of the team endpoints, carrying the base
message the code inspects. -/
structure TeamErrors where
  base : String
  deriving DecidableEq, Repr

/-- Invite response payload. -/
structure TeamResp where
  errors : Option TeamErrors
  deriving DecidableEq, Repr

/-- Test that a character list starts with a pattern. -/
def startsWithSeq : List Char → List Char → Bool
  | _, [] => true
  | [], _ :: _ => false
  | c :: cs, p :: ps => c == p && startsWithSeq cs ps

/-- Test that a pattern occurs somewhere in a character list. -/
def containsSeq (pat : List Char) : List Char → Bool
  | [] => startsWithSeq [] pat
  | c :: rest => startsWithSeq (c :: rest) pat || containsSeq pat rest

/-- Substring test mirroring the Python in operator on strings. -/
def hasSubstr (s pat : String) : Bool := containsSeq pat.data s.data

/-- Benign notice for an invitee who already has a pending invitation (user.py
lines 531-533). -/
def inviteBenignMsg (z : String) : String :=
  s!"\n[ 🟢 ] An invitation has been sent already to join your team to: {z}\n"

/-- Success notice for a fresh invitation (user.py lines 538-540). -/
def inviteOkMsg (z : String) : String :=
  s!"\n[ 🟢 ] An invitation has been sent to join your team to: {z}\n"

/-- Output of team_up: the usernames for which an invite was posted, in order. -/
structure TeamUpOut where
  result : Except String Unit
  invites : List String
  printed : List String
  deriving Repr

/-- Embedding of the invite loop of team_up (user.py lines 525-540): one POST
per username in order; an errors payload whose base contains "is already
invited" is a benign notice and the loop continues; any other errors payload
raises immediately, posting no further invites. -/
def teamUpLoop (inviteResp : String → TeamResp) : List String → TeamUpOut
  | [] => { result := .ok (), invites := [], printed := [] }
  | z :: rest =>
    let resp := inviteResp z
    match resp.errors with
    | some err =>
      if hasSubstr err.base "is already invited" then
        let out := teamUpLoop inviteResp rest
        { out with invites := z :: out.invites,
                   printed := inviteBenignMsg z :: out.printed }
      else
        { result := .error (errorsMsg err.base), invites := [z], printed := [] }
    | none =>
      let out := teamUpLoop inviteResp rest
      { out with invites := z :: out.invites,
                 printed := inviteOkMsg z :: out.printed }

/-- Embedding of team_up (user.py lines 508-544). -/
def team_up (selected : Bool) (inviteResp : String → TeamResp)
    (zindians : List String) : TeamUpOut :=
  if selected then teamUpLoop inviteResp zindians
  else { result := .error teamNotSelMsg, invites := [], printed := [] }

/-- Create-team response payload: optional errors and the created title the
success branch prints. -/
structure CreateResp where
  errors : Option TeamErrors
  title : Option String
  deriving DecidableEq, Repr

/-- Already-a-leader benign notice (user.py line 491). -/
def alreadyLeaderMsg : String := "\n[ 🟢 ] You are already the leader of a team.\n"

/-- Team-created success message (user.py lines 493-495). -/
def teamCreatedMsg (title : String) : String :=
  s!"\n[ 🟢 ] Your team is well created as :{title}\n"

/-- Hint printed when no teammates were supplied (user.py lines 500-502). -/
def inviteHintMsg : String :=
  "You can send invitation to join your team using teamup function"

/-- Output of create_team. -/
structure CreateOut where
  result : Except String Unit
  reqs : List NetReq
  invites : List String
  printed : List String

/-- Embedding of create_team (user.py lines 460-505): POST the create request;
an errors base containing "Leader can only be" is benign, any other errors
payload raises; on success or the benign case, invite the teammates through
team_up when the list is non-empty. -/
def create_team (selected : Bool) (resp : CreateResp)
    (inviteResp : String → TeamResp) (team_name : String)
    (teammates : List String) : CreateOut :=
  if selected then
    let proceed (firstMsg : String) : CreateOut :=
      if teammates.length > 0 then
        let tOut := team_up true inviteResp teammates
        { result := tOut.result,
          reqs := .teamCreate :: tOut.invites.map .invite,
          invites := tOut.invites,
          printed := firstMsg :: tOut.printed }
      else
        { result := .ok (), reqs := [.teamCreate], invites := [],
          printed := [firstMsg, inviteHintMsg] }
    match resp.errors with
    | some err =>
      if hasSubstr err.base "Leader can only be" then proceed alreadyLeaderMsg
      else
        { result := .error (errorsMsg err.base), reqs := [.teamCreate],
          invites := [], printed := [] }
    | none =>
      match resp.title with
      | some t => proceed (teamCreatedMsg t)
      | none =>
        { result := .error "KeyError: title", reqs := [.teamCreate],
          invites := [], printed := [] }
  else
    { result := .error teamNotSelMsg, reqs := [], invites := [], printed := [] }

/-- Disband response payload: optional errors and the raw success payload the
code prints. -/
structure DisbandResp where
  errors : Option String
  payload : String
  deriving DecidableEq, Repr

/-- Output of disband_team. -/
structure DisbandOut where
  result : Except String Unit
  reqs : List NetReq
  printed : List String

/-- Embedding of disband_team (user.py lines 547-568). -/
def disband_team (selected : Bool) (resp : DisbandResp) : DisbandOut :=
  if selected then
    match resp.errors with
    | some e => { result := .error (errorsMsg e), reqs := [.teamDisband], printed := [] }
    | none => { result := .ok (), reqs := [.teamDisband], printed := [greenMsg resp.payload] }
  else
    { result := .error teamNotSelMsg, reqs := [], printed := [] }

/-! ### concrete environments used by counterexamples -/

/-- Environment whose Rules page declares a quota of 5, whose board holds two
entries created within the last 24 hours and one created 25 hours ago, and
whose submissions/limits endpoint reports today = 7. -/
def envC1 : RemEnv :=
  { selected := true
    cid := "challenge-2"
    pages := [{ title := "Overview", content := [Tok.word "intro"] },
              { title := "Rules",
                content := [Tok.word "maximum", Tok.word "of", Tok.num 5,
                            Tok.word "submissions", Tok.word "per", Tok.word "day"] }]
    board := [{ created_at := -2 }, { created_at := -1 }, { created_at := -25 }]
    now := 0
    limits := { errors := none, today := some 7 } }

/-- Invite responses where the first invitee draws an errors base message that
contains "already invited" but not "is already invited". -/
def invRespC8 : String → TeamResp := fun z =>
  if z = "u1" then { errors := some { base := "user u1 already invited" } }
  else { errors := none }

/-! ## Theorems -/

/-- C1, counterexample: in an environment whose Rules page declares a quota of 5
and whose board holds two entries created within the last 24 hours and one 25
hours old, the spec formula max(quota - countToday, 0) yields 3, but
remaining_subimissions returns the today field (7) of the submissions/limits
payload, so the claimed computation is not what the code performs. -/
theorem c1_claim_false :
    rulesQuota envC1.pages = 5
    ∧ (envC1.board.filter (fun e => envC1.now - e.created_at < 24)).length = 2
    ∧ spec_remaining_submissions envC1 = 3
    ∧ (remaining_subimissions envC1).result = Except.ok (some 7)
    ∧ ¬ ((7 : Int) = 3) := by
  exact ⟨rfl, rfl, rfl, rfl, by decide⟩

/-- C1, amended: with a challenge selected, remaining_subimissions issues one GET
to the submissions/limits endpoint and returns the today field of a non-error
payload; the informational pages, the submission board and the clock play no
part in the result. -/
theorem c1_amended (env : RemEnv) (t : Int)
    (hs : env.selected = true) (he : env.limits.errors = none)
    (ht : env.limits.today = some t) :
    (remaining_subimissions env).result = Except.ok (some t)
    ∧ (remaining_subimissions env).reqs = [NetReq.limits]
    ∧ (remaining_subimissions env).printed = [limitsOkMsg t env.cid]
    ∧ ∀ (pages2 : List Page) (board2 : List SubEntry) (now2 : Int),
        remaining_subimissions { env with pages := pages2, board := board2, now := now2 }
          = remaining_subimissions env := by
  obtain ⟨sel, cid, pages, board, now, limits⟩ := env
  obtain ⟨err, td⟩ := limits
  simp only at hs he ht
  subst hs; subst he; subst ht
  exact ⟨rfl, rfl, rfl, fun _ _ _ => rfl⟩

/-- C1, witness for the amended theorem at the concrete environment envC1. -/
theorem c1_amended_witness :
    (remaining_subimissions envC1).result = Except.ok (some 7)
    ∧ (remaining_subimissions envC1).reqs = [NetReq.limits] := by
  have h := c1_amended envC1 7 rfl rfl rfl
  exact ⟨h.1, h.2.1⟩

/-- C2: every challenge-scoped operation called with no challenge selected
signals the missing selection immediately and issues no network request: the
seven mutating or fetching operations raise the descriptive select-a-challenge
error, and the two accessors my_rank and remaining_subimissions print the
not-yet-selected notice and return their sentinel, all with an empty request
trace. -/
theorem c2_no_challenge_no_network
    (isdir make_destination : Bool) (destination api : String) (files : List DataFile)
    (isfile : String → Bool) (up : String → UploadResp) (filepaths : List String)
    (cref : Nat) (store : Nat → List String)
    (lbResp sbResp : BoardResp) (rk : Nat) (tp tp2 : Bool)
    (cResp : CreateResp) (iResp : String → TeamResp) (tn : String)
    (mates zs : List String) (dResp : DisbandResp)
    (cid cid2 : String) (mResp : MyPartResp) (pages : List Page)
    (board : List SubEntry) (now : Int) (lim : LimitsResp) :
    ((download_dataset false isdir destination make_destination api files).result
        = Except.error downloadNotSelMsg
      ∧ (download_dataset false isdir destination make_destination api files).reqs = [])
    ∧ ((submit false isfile up filepaths cref store).result = Except.error submitNotSelMsg
      ∧ (submit false isfile up filepaths cref store).uploads = [])
    ∧ ((leaderboard false lbResp rk tp).result = Except.error lbNotSelMsg
      ∧ (leaderboard false lbResp rk tp).reqs = [])
    ∧ ((submission_board false sbResp tp2).result = Except.error sbNotSelMsg
      ∧ (submission_board false sbResp tp2).reqs = [])
    ∧ ((create_team false cResp iResp tn mates).result = Except.error teamNotSelMsg
      ∧ (create_team false cResp iResp tn mates).reqs = []
      ∧ (create_team false cResp iResp tn mates).invites = [])
    ∧ ((team_up false iResp zs).result = Except.error teamNotSelMsg
      ∧ (team_up false iResp zs).invites = [])
    ∧ ((disband_team false dResp).result = Except.error teamNotSelMsg
      ∧ (disband_team false dResp).reqs = [])
    ∧ ((my_rank false cid mResp).result = Except.ok 0
      ∧ (my_rank false cid mResp).reqs = []
      ∧ (my_rank false cid mResp).printed = [noChallengeNoteMsg])
    ∧ ((remaining_subimissions ⟨false, cid2, pages, board, now, lim⟩).result = Except.ok none
      ∧ (remaining_subimissions ⟨false, cid2, pages, board, now, lim⟩).reqs = []
      ∧ (remaining_subimissions ⟨false, cid2, pages, board, now, lim⟩).printed
          = [noChallengeNoteMsg]) := by
  exact ⟨⟨rfl, rfl⟩, ⟨rfl, rfl⟩, ⟨rfl, rfl⟩, ⟨rfl, rfl⟩, ⟨rfl, rfl, rfl⟩,
    ⟨rfl, rfl⟩, ⟨rfl, rfl⟩, ⟨rfl, rfl, rfl⟩, ⟨rfl, rfl, rfl⟩⟩

/-- C3, counterexample: with an empty search result set (n = 0), any explicit
fixed_index (here 0, which is outside range(0, 0)) does not raise: the call
prints the no-challenges notice and returns normally. -/
theorem c3_claim_false :
    (select_a_challenge none ⟨none, ⟨"x", "y"⟩⟩ ([] : List Challenge) (some 0)
        (fun _ => 0)).result = Except.ok ()
    ∧ (select_a_challenge none ⟨none, ⟨"x", "y"⟩⟩ ([] : List Challenge) (some 0)
        (fun _ => 0)).printed = [noChallengesFoundMsg]
    ∧ ¬ ((0 : Int) < ((([] : List Challenge)).length : Int)) := by
  exact ⟨rfl, rfl, by decide⟩

/-- C3, amended: for every non-empty search result set and every explicit
fixed_index outside range(0, n), filtered-search selection raises the range
error; the empty result set instead reports no challenges and returns. -/
theorem c3_amended (dResp : DetailResp) (cs : List Challenge) (i : Int)
    (f : Nat → Int) (hne : cs ≠ []) (hout : i < 0 ∨ (cs.length : Int) ≤ i) :
    (select_a_challenge none dResp cs (some i) f).result
      = Except.error (rangeErrMsg cs.length) := by
  cases cs with
  | nil => exact absurd rfl hne
  | cons c cs' =>
    simp only [select_a_challenge]
    rw [if_neg (show ¬ ((c :: cs').length = 0) by simp), if_pos hout]

/-- C3, witness for the amended theorem: index 5 against a single search
result raises the range error for range(0, 1). -/
theorem c3_amended_witness :
    (select_a_challenge none ⟨none, ⟨"x", "y"⟩⟩ [⟨"c1", "s1"⟩] (some 5)
        (fun _ => 0)).result = Except.error (rangeErrMsg 1) := by
  exact c3_amended ⟨none, ⟨"x", "y"⟩⟩ [⟨"c1", "s1"⟩] 5 (fun _ => 0) (by decide) (by decide)

/-- C4: with no challenge selected, my_rank returns the sentinel 0 and
remaining_subimissions returns the absent value, neither raising. -/
theorem c4_unselected_sentinels (cid cid2 : String) (mResp : MyPartResp)
    (pages : List Page) (board : List SubEntry) (now : Int) (lim : LimitsResp) :
    (my_rank false cid mResp).result = Except.ok 0
    ∧ (remaining_subimissions ⟨false, cid2, pages, board, now, lim⟩).result
        = Except.ok none :=
  ⟨rfl, rfl⟩

/-- C5: the submit loop treats each (filepath, comment) pair independently: a
non-.csv extension and a missing file each print a diagnostic and continue, an
errors upload response prints a diagnostic and continues without raising, and
for the batch a.csv / b.txt / missing.csv (a.csv on disk, missing.csv absent)
exactly one upload is attempted and the call returns normally. -/
theorem c5_submit_batch (isfile : String → Bool) (up : String → UploadResp)
    (filepath comment : String) (rest : List (String × String)) (e : String) :
    (extensionOf filepath ∉ allowed_extensions →
      submitLoop isfile up ((filepath, comment) :: rest)
        = { uploads := (submitLoop isfile up rest).uploads,
            printed := submitNotCsvMsg filepath :: (submitLoop isfile up rest).printed,
            result := (submitLoop isfile up rest).result })
    ∧ (extensionOf filepath ∈ allowed_extensions → isfile filepath = false →
      submitLoop isfile up ((filepath, comment) :: rest)
        = { uploads := (submitLoop isfile up rest).uploads,
            printed := submitNoFileMsg filepath :: (submitLoop isfile up rest).printed,
            result := (submitLoop isfile up rest).result })
    ∧ (extensionOf filepath ∈ allowed_extensions → isfile filepath = true →
        (up filepath).errors = some e →
      submitLoop isfile up ((filepath, comment) :: rest)
        = { uploads := (filepath, comment) :: (submitLoop isfile up rest).uploads,
            printed := submitWrongFileMsg filepath e :: (submitLoop isfile up rest).printed,
            result := (submitLoop isfile up rest).result })
    ∧ ((submit true (fun p => p == "a.csv" || p == "b.txt")
          (fun _ => { errors := some "Submission failed", id := none })
          ["a.csv", "b.txt", "missing.csv"] 1 (fun _ => [])).uploads
        = [("a.csv", "")]
      ∧ (submit true (fun p => p == "a.csv" || p == "b.txt")
          (fun _ => { errors := some "Submission failed", id := none })
          ["a.csv", "b.txt", "missing.csv"] 1 (fun _ => [])).result = Except.ok ()
      ∧ (submit true (fun p => p == "a.csv" || p == "b.txt")
          (fun _ => { errors := some "Submission failed", id := none })
          ["a.csv", "b.txt", "missing.csv"] 1 (fun _ => [])).printed
        = [submitWrongFileMsg "a.csv" "Submission failed",
           submitNotCsvMsg "b.txt", submitNoFileMsg "missing.csv"]) := by
  refine ⟨?_, ?_, ?_, ?_, ?_, ?_⟩
  · intro h
    simp only [submitLoop]
    rw [if_neg h]
  · intro h1 h2
    simp only [submitLoop]
    rw [if_pos h1, if_neg (show ¬ (isfile filepath = true) by simp [h2])]
  · intro h1 h2 h3
    simp only [submitLoop]
    rw [if_pos h1, if_pos h2, h3]
  · rfl
  · rfl
  · rfl

/-- C5, witness: the three per-file behaviors at concrete inputs. -/
theorem c5_submit_batch_witness :
    submitLoop (fun p => p == "a.csv") (fun _ => { errors := some "boom", id := none })
        [("b.txt", "c")]
      = { uploads := [], printed := [submitNotCsvMsg "b.txt"], result := Except.ok () }
    ∧ submitLoop (fun p => p == "a.csv") (fun _ => { errors := some "boom", id := none })
        [("missing.csv", "c")]
      = { uploads := [], printed := [submitNoFileMsg "missing.csv"], result := Except.ok () }
    ∧ submitLoop (fun p => p == "a.csv") (fun _ => { errors := some "boom", id := none })
        [("a.csv", "c")]
      = { uploads := [("a.csv", "c")], printed := [submitWrongFileMsg "a.csv" "boom"],
          result := Except.ok () } := by
  refine ⟨?_, ?_, ?_⟩
  · have h := (c5_submit_batch (fun p => p == "a.csv")
      (fun _ => { errors := some "boom", id := none }) "b.txt" "c" [] "boom").1 (by decide)
    rw [h]; rfl
  · have h := (c5_submit_batch (fun p => p == "a.csv")
      (fun _ => { errors := some "boom", id := none }) "missing.csv" "c" [] "boom").2.1
      (by decide) (by decide)
    rw [h]; rfl
  · have h := (c5_submit_batch (fun p => p == "a.csv")
      (fun _ => { errors := some "boom", id := none }) "a.csv" "c" [] "boom").2.2.1
      (by decide) (by decide) rfl
    rw [h]; rfl

/-- Accumulator form of the de-duplication fold: the fold only appends, so the
appended part is a sublist of the input. -/
theorem dedup_foldl_sublist (l : List DataFile) :
    ∀ acc : List DataFile,
      ∃ t, List.foldl dedupStep acc l = acc ++ t ∧ t.Sublist l := by
  induction l with
  | nil => exact fun acc => ⟨[], by simp, List.Sublist.refl _⟩
  | cons x xs ih =>
    intro acc
    by_cases hx : x ∈ acc
    · obtain ⟨t, ht, hs⟩ := ih acc
      refine ⟨t, ?_, List.Sublist.cons _ hs⟩
      calc List.foldl dedupStep acc (x :: xs)
          = List.foldl dedupStep acc xs := by simp [dedupStep, hx]
        _ = acc ++ t := ht
    · obtain ⟨t, ht, hs⟩ := ih (acc ++ [x])
      refine ⟨x :: t, ?_, List.Sublist.cons₂ _ hs⟩
      calc List.foldl dedupStep acc (x :: xs)
          = List.foldl dedupStep (acc ++ [x]) xs := by simp [dedupStep, hx]
        _ = (acc ++ [x]) ++ t := ht
        _ = acc ++ (x :: t) := by simp

/-- Membership through the de-duplication fold. -/
theorem dedup_foldl_mem (l : List DataFile) :
    ∀ (acc : List DataFile) (x : DataFile),
      x ∈ List.foldl dedupStep acc l ↔ x ∈ acc ∨ x ∈ l := by
  induction l with
  | nil => intro acc x; simp
  | cons y ys ih =>
    intro acc x
    by_cases hy : y ∈ acc
    · rw [show List.foldl dedupStep acc (y :: ys) = List.foldl dedupStep acc ys
        by simp [dedupStep, hy]]
      rw [ih acc x]
      constructor
      · rintro (h | h)
        · exact Or.inl h
        · exact Or.inr (List.mem_cons_of_mem _ h)
      · rintro (h | h)
        · exact Or.inl h
        · rcases List.mem_cons.mp h with rfl | h2
          · exact Or.inl hy
          · exact Or.inr h2
    · rw [show List.foldl dedupStep acc (y :: ys) = List.foldl dedupStep (acc ++ [y]) ys
        by simp [dedupStep, hy]]
      rw [ih (acc ++ [y]) x]
      simp [or_assoc]

/-- The de-duplication fold preserves freedom from duplicates. -/
theorem dedup_foldl_nodup (l : List DataFile) :
    ∀ acc : List DataFile, acc.Nodup → (List.foldl dedupStep acc l).Nodup := by
  induction l with
  | nil => intro acc h; simpa using h
  | cons y ys ih =>
    intro acc h
    by_cases hy : y ∈ acc
    · rw [show List.foldl dedupStep acc (y :: ys) = List.foldl dedupStep acc ys
        by simp [dedupStep, hy]]
      exact ih acc h
    · rw [show List.foldl dedupStep acc (y :: ys) = List.foldl dedupStep (acc ++ [y]) ys
        by simp [dedupStep, hy]]
      refine ih _ ?_
      rw [List.nodup_append]
      refine ⟨h, List.nodup_singleton y, ?_⟩
      intro a ha hb
      rw [List.mem_singleton] at hb
      subst hb
      exact hy ha

/-- removeDeplicates keeps the manifest records in first-seen order. -/
theorem removeDeplicates_sublist (l : List DataFile) :
    (removeDeplicates l).Sublist l := by
  obtain ⟨t, ht, hs⟩ := dedup_foldl_sublist l []
  unfold removeDeplicates
  rw [ht]
  simpa using hs

/-- removeDeplicates keeps exactly the records of the manifest. -/
theorem removeDeplicates_mem (l : List DataFile) (x : DataFile) :
    x ∈ removeDeplicates l ↔ x ∈ l := by
  unfold removeDeplicates
  rw [dedup_foldl_mem l [] x]
  simp

/-- removeDeplicates leaves no duplicate record. -/
theorem removeDeplicates_nodup (l : List DataFile) : (removeDeplicates l).Nodup :=
  dedup_foldl_nodup l [] List.nodup_nil

/-- C6: download_dataset de-duplicates the manifest by full record equality
preserving first-seen order (the de-duplicated list is a duplicate-free sublist
of the manifest holding each manifest record exactly once) and invokes the
download helper exactly once per remaining record; in particular a manifest
with a duplicated record yields a single download for it. -/
theorem c6_download_dedup (api destination : String) (l : List DataFile)
    (d : DataFile) :
    (download_dataset true true destination false api l).downloads = removeDeplicates l
    ∧ (removeDeplicates l).Sublist l
    ∧ (removeDeplicates l).count d = (if d ∈ l then 1 else 0)
    ∧ (download_dataset true true destination false api l).reqs
        = NetReq.challengeDetail :: (removeDeplicates l).map
            (fun f => NetReq.fileDownload (api ++ "/files/" ++ f.filename)
              (pathJoin destination f.filename))
    ∧ removeDeplicates [⟨"df-1", "Train.csv"⟩, ⟨"df-1", "Train.csv"⟩]
        = [⟨"df-1", "Train.csv"⟩] := by
  refine ⟨rfl, removeDeplicates_sublist l, ?_, rfl, by decide⟩
  by_cases hd : d ∈ l
  · rw [if_pos hd]
    exact List.count_eq_one_of_mem (removeDeplicates_nodup l)
      ((removeDeplicates_mem l d).mpr hd)
  · rw [if_neg hd]
    exact List.count_eq_zero_of_not_mem (fun hc => hd ((removeDeplicates_mem l d).mp hc))

/-- C7: with a challenge selected and a non-error participation payload, my_rank
returns the numeric public rank (absent sent to 0), caches it, and prints the
ordinal rendering; the rendering maps 0 to "not yet" and otherwise appends
st/nd/rd exactly when the last digit is 1/2/3 and the last two digits are not
11/12/13, th otherwise. -/
theorem c7_my_rank_ordinal (cid : String) (pr : Option Nat) (m : Nat) :
    (my_rank true cid { errors := none, public_rank := pr }).result
        = Except.ok (pr.getD 0)
    ∧ (my_rank true cid { errors := none, public_rank := pr }).cached
        = some (pr.getD 0)
    ∧ (my_rank true cid { errors := none, public_rank := pr }).printed
        = [rankMsg (rankString (pr.getD 0)) cid]
    ∧ rankString 0 = "not yet"
    ∧ rankString m =
        (if m = 0 then "not yet" else toString m ++
          (if m % 10 = 1 ∧ m % 100 ≠ 11 then "st"
           else if m % 10 = 2 ∧ m % 100 ≠ 12 then "nd"
           else if m % 10 = 3 ∧ m % 100 ≠ 13 then "rd"
           else "th")) := by
  refine ⟨rfl, rfl, rfl, rfl, ?_⟩
  unfold rankString rankSuffix
  split_ifs <;> first | rfl | omega

/-- C9: calling download_dataset with make_destination left true and a
destination that is not yet a directory creates the directory even when no
challenge is selected, and the call still raises the precondition error, so the
filesystem is modified although the operation fails. -/
theorem c9_mkdir_before_precondition (destination api : String) (l : List DataFile) :
    (download_dataset false false destination true api l).fsOps
        = [FsOp.mkdir destination]
    ∧ (download_dataset false false destination true api l).result
        = Except.error downloadNotSelMsg :=
  ⟨rfl, rfl⟩

/-- C8, counterexample: an invite errors base message that contains "already
invited" but not the literal "is already invited" is not treated as benign: the
call raises immediately and the second username is never invited, contradicting
the claim that any message containing "already invited" lets the loop
continue. -/
theorem c8_claim_false :
    hasSubstr "user u1 already invited" "already invited" = true
    ∧ (team_up true invRespC8 ["u1", "u2"]).result
        = Except.error (errorsMsg "user u1 already invited")
    ∧ (team_up true invRespC8 ["u1", "u2"]).invites = ["u1"] := by
  exact ⟨by decide, rfl, rfl⟩

/-- C8, amended: team_up posts one invite per username in list order; an errors
base message containing the literal "is already invited" prints a benign notice
and the loop continues; any other errors response raises immediately and no
further invites are posted. -/
theorem c8_amended (inv : String → TeamResp) (z : String) (rest : List String)
    (err : TeamErrors) :
    ((inv z).errors = some err → hasSubstr err.base "is already invited" = true →
      teamUpLoop inv (z :: rest)
        = { result := (teamUpLoop inv rest).result,
            invites := z :: (teamUpLoop inv rest).invites,
            printed := inviteBenignMsg z :: (teamUpLoop inv rest).printed })
    ∧ ((inv z).errors = some err → hasSubstr err.base "is already invited" = false →
      teamUpLoop inv (z :: rest)
        = { result := Except.error (errorsMsg err.base), invites := [z], printed := [] })
    ∧ ((inv z).errors = none →
      teamUpLoop inv (z :: rest)
        = { result := (teamUpLoop inv rest).result,
            invites := z :: (teamUpLoop inv rest).invites,
            printed := inviteOkMsg z :: (teamUpLoop inv rest).printed })
    ∧ (∀ zs : List String, (∀ w ∈ zs, (inv w).errors = none) →
        (teamUpLoop inv zs).invites = zs ∧ (teamUpLoop inv zs).result = Except.ok ())
    ∧ team_up true inv (z :: rest) = teamUpLoop inv (z :: rest) := by
  refine ⟨?_, ?_, ?_, ?_, rfl⟩
  · intro h1 h2
    simp [teamUpLoop, h1, h2]
  · intro h1 h2
    simp [teamUpLoop, h1, h2]
  · intro h1
    simp [teamUpLoop, h1]
  · intro zs
    induction zs with
    | nil => exact fun _ => ⟨rfl, rfl⟩
    | cons w ws ih =>
      intro hz
      have hw : (inv w).errors = none := hz w (List.mem_cons_self w ws)
      obtain ⟨ih1, ih2⟩ := ih (fun w2 hm => hz w2 (List.mem_cons_of_mem _ hm))
      constructor
      · simp only [teamUpLoop, hw]
        rw [ih1]
      · simp only [teamUpLoop, hw]
        exact ih2

/-- C8, witness for the amended theorem at concrete invite responses. -/
theorem c8_amended_witness :
    teamUpLoop invRespC8 ["u1", "u2"]
      = { result := Except.error (errorsMsg "user u1 already invited"),
          invites := ["u1"], printed := [] }
    ∧ (teamUpLoop invRespC8 ["u2"]).invites = ["u2"]
    ∧ (teamUpLoop invRespC8 ["u2"]).result = Except.ok ()
    ∧ (teamUpLoop (fun _ => { errors := some { base := "w is already invited" } })
        ["w"]).invites = ["w"] := by
  refine ⟨?_, ?_, ?_, ?_⟩
  · exact (c8_amended invRespC8 "u1" ["u2"] ⟨"user u1 already invited"⟩).2.1 rfl (by decide)
  · exact ((c8_amended invRespC8 "u2" [] ⟨"x"⟩).2.2.2.1 ["u2"] (by decide)).1
  · exact ((c8_amended invRespC8 "u2" [] ⟨"x"⟩).2.2.2.1 ["u2"] (by decide)).2
  · have h := (c8_amended (fun _ => { errors := some { base := "w is already invited" } })
      "w" [] ⟨"w is already invited"⟩).1 rfl (by decide)
    rw [h]; rfl

/-- C10: when the comments list is shorter than the filepaths list, submit
extends the referenced comments list object in place with empty strings up to
the length of filepaths, so the callers list — including the shared module-level
default object when the argument is omitted — is observably mutated by the
call. -/
theorem c10_comments_inplace (filepaths : List String) (cref : Nat)
    (store : Nat → List String) (isfile : String → Bool) (up : String → UploadResp)
    (h : (store cref).length < filepaths.length) :
    (submit true isfile up filepaths cref store).store cref
      = store cref ++ List.replicate (filepaths.length - (store cref).length) ""
    ∧ ((submit true isfile up filepaths cref store).store cref).length
        = filepaths.length
    ∧ (submit true isfile up filepaths cref store).store cref ≠ store cref := by
  have e1 : (submit true isfile up filepaths cref store).store cref
      = store cref ++ List.replicate (filepaths.length - (store cref).length) "" := by
    show (if cref = cref then
        (if (store cref).length < filepaths.length then
          store cref ++ List.replicate (filepaths.length - (store cref).length) ""
        else store cref)
      else store cref) = _
    rw [if_pos rfl, if_pos h]
  refine ⟨e1, ?_, ?_⟩
  · rw [e1, List.length_append, List.length_replicate]
    omega
  · rw [e1]
    intro hc
    have hlen := congrArg List.length hc
    rw [List.length_append, List.length_replicate] at hlen
    omega

/-- C10, witness: a call with the empty list at reference 0 and one filepath
leaves a one-element padded list in the referenced object. -/
theorem c10_comments_inplace_witness :
    (submit true (fun _ => false) (fun _ => { errors := none, id := none })
        ["a.csv"] 0 (fun _ => [])).store 0 = [""]
    ∧ ((submit true (fun _ => false) (fun _ => { errors := none, id := none })
        ["a.csv"] 0 (fun _ => [])).store 0).length = 1 := by
  have h := c10_comments_inplace ["a.csv"] 0 (fun _ => []) (fun _ => false)
    (fun _ => { errors := none, id := none }) (by decide)
  exact ⟨by simpa using h.1, by simpa using h.2.1⟩

end Zindi
